import Mathlib

/-!
# Verification of the libQtShadowsocks `Cipher` façade

A shallow embedding of `src/lib/cipher.cpp` (class `QSS::Cipher`): the method
registry `cipherInfoMap`, constructor dispatch, `update`, `getIV`, `randomIv`,
`hmacSha1`, `isSupported`, `supportedMethods` and `deriveSubkey`.

Byte strings are `List Nat` (each element a byte value). The external crypto
provider (Botan / Qt) and the repository's dedicated RC4 / ChaCha engines are
not part of `src/`; they are modelled from the spec as noted on each
definition. The preprocessor flag `USE_BOTAN2` becomes an explicit `Bool`
parameter `botan2`; per the source, the provider has a native ChaCha
implementation exactly when `botan2 = true`.
-/

/-- Does `hay` start with `needle`? Helper for the substring test. -/
def leadsWith : List Char → List Char → Bool
  | [], _ => true
  | _ :: _, [] => false
  | a :: as, b :: bs => a == b && leadsWith as bs

/-- Does the character list contain `needle` as a contiguous run? -/
def hasRun (needle : List Char) : List Char → Bool
  | [] => leadsWith needle []
  | b :: bs => leadsWith needle (b :: bs) || hasRun needle bs

/-- `containsStr hay needle` models C++ `hay.find(needle) != std::string::npos`
(case-sensitive substring search). -/
def containsStr (hay needle : String) : Bool :=
  hasRun needle.toList hay.toList

/-- `Cipher::CipherType` from cipher.h: STREAM or AEAD. -/
inductive CipherType where
  | STREAM
  | AEAD
deriving DecidableEq

/-- `Cipher::CipherInfo`: the registry descriptor. In the C++ aggregate
initialisers the STREAM rows omit `saltLen`/`tagLen`, which are then
value-initialised to 0; we mirror that with default values. -/
structure CipherInfo where
  internalName : String
  keyLen : Nat
  ivLen : Nat
  type : CipherType
  saltLen : Nat := 0
  tagLen : Nat := 0
deriving DecidableEq

/-- `Cipher::cipherInfoMap` from cipher.cpp lines 102–126, as an association
list in `std::map` (lexicographic key) order. The `aes-256-gcm` row is present
exactly when `USE_BOTAN2` is defined (`botan2 = true`). -/
def cipherInfoMap (botan2 : Bool) : List (String × CipherInfo) :=
  [ ("aes-128-cfb", { internalName := "AES-128/CFB", keyLen := 16, ivLen := 16, type := .STREAM }),
    ("aes-128-ctr", { internalName := "AES-128/CTR-BE", keyLen := 16, ivLen := 16, type := .STREAM }),
    ("aes-192-cfb", { internalName := "AES-192/CFB", keyLen := 24, ivLen := 16, type := .STREAM }),
    ("aes-192-ctr", { internalName := "AES-192/CTR-BE", keyLen := 24, ivLen := 16, type := .STREAM }),
    ("aes-256-cfb", { internalName := "AES-256/CFB", keyLen := 32, ivLen := 16, type := .STREAM }),
    ("aes-256-ctr", { internalName := "AES-256/CTR-BE", keyLen := 32, ivLen := 16, type := .STREAM }) ]
  ++ (if botan2 then
    [ ("aes-256-gcm", { internalName := "AES-128/GCM", keyLen := 32, ivLen := 12,
                        type := .AEAD, saltLen := 32, tagLen := 16 }) ]
    else [])
  ++
  [ ("bf-cfb", { internalName := "Blowfish/CFB", keyLen := 16, ivLen := 8, type := .STREAM }),
    ("camellia-128-cfb", { internalName := "Camellia-128/CFB", keyLen := 16, ivLen := 16, type := .STREAM }),
    ("camellia-192-cfb", { internalName := "Camellia-192/CFB", keyLen := 24, ivLen := 16, type := .STREAM }),
    ("camellia-256-cfb", { internalName := "Camellia-256/CFB", keyLen := 32, ivLen := 16, type := .STREAM }),
    ("cast5-cfb", { internalName := "CAST-128/CFB", keyLen := 16, ivLen := 8, type := .STREAM }),
    ("chacha20", { internalName := "ChaCha", keyLen := 32, ivLen := 8, type := .STREAM }),
    ("chacha20-ietf", { internalName := "ChaCha", keyLen := 32, ivLen := 12, type := .STREAM }),
    ("des-cfb", { internalName := "DES/CFB", keyLen := 8, ivLen := 8, type := .STREAM }),
    ("idea-cfb", { internalName := "IDEA/CFB", keyLen := 16, ivLen := 8, type := .STREAM }),
    ("rc2-cfb", { internalName := "RC2/CFB", keyLen := 16, ivLen := 8, type := .STREAM }),
    ("rc4-md5", { internalName := "RC4-MD5", keyLen := 16, ivLen := 16, type := .STREAM }),
    ("salsa20", { internalName := "Salsa20", keyLen := 32, ivLen := 8, type := .STREAM }),
    ("seed-cfb", { internalName := "SEED/CFB", keyLen := 16, ivLen := 16, type := .STREAM }),
    ("serpent-256-cfb", { internalName := "Serpent/CFB", keyLen := 32, ivLen := 16, type := .STREAM }) ]

/-- `cipherInfoMap.at(method)`: registry lookup, `none` models the thrown
`std::out_of_range` (`UnknownMethod`). -/
def lookupInfo (botan2 : Bool) (name : String) : Option CipherInfo :=
  ((cipherInfoMap botan2).find? (fun p => p.1 == name)).map (·.2)

/-- The spec's §3 catalogue table, transcribed from the spec's words (not from
the source) for the refinement comparison in C1; the AEAD row is kept
separate because the spec marks it conditional. -/
def specStreamRows : List (String × CipherInfo) :=
  [ ("aes-128-cfb", { internalName := "AES-128/CFB", keyLen := 16, ivLen := 16, type := .STREAM }),
    ("aes-192-cfb", { internalName := "AES-192/CFB", keyLen := 24, ivLen := 16, type := .STREAM }),
    ("aes-256-cfb", { internalName := "AES-256/CFB", keyLen := 32, ivLen := 16, type := .STREAM }),
    ("aes-128-ctr", { internalName := "AES-128/CTR-BE", keyLen := 16, ivLen := 16, type := .STREAM }),
    ("aes-192-ctr", { internalName := "AES-192/CTR-BE", keyLen := 24, ivLen := 16, type := .STREAM }),
    ("aes-256-ctr", { internalName := "AES-256/CTR-BE", keyLen := 32, ivLen := 16, type := .STREAM }),
    ("bf-cfb", { internalName := "Blowfish/CFB", keyLen := 16, ivLen := 8, type := .STREAM }),
    ("camellia-128-cfb", { internalName := "Camellia-128/CFB", keyLen := 16, ivLen := 16, type := .STREAM }),
    ("camellia-192-cfb", { internalName := "Camellia-192/CFB", keyLen := 24, ivLen := 16, type := .STREAM }),
    ("camellia-256-cfb", { internalName := "Camellia-256/CFB", keyLen := 32, ivLen := 16, type := .STREAM }),
    ("cast5-cfb", { internalName := "CAST-128/CFB", keyLen := 16, ivLen := 8, type := .STREAM }),
    ("chacha20", { internalName := "ChaCha", keyLen := 32, ivLen := 8, type := .STREAM }),
    ("chacha20-ietf", { internalName := "ChaCha", keyLen := 32, ivLen := 12, type := .STREAM }),
    ("des-cfb", { internalName := "DES/CFB", keyLen := 8, ivLen := 8, type := .STREAM }),
    ("idea-cfb", { internalName := "IDEA/CFB", keyLen := 16, ivLen := 8, type := .STREAM }),
    ("rc2-cfb", { internalName := "RC2/CFB", keyLen := 16, ivLen := 8, type := .STREAM }),
    ("rc4-md5", { internalName := "RC4-MD5", keyLen := 16, ivLen := 16, type := .STREAM }),
    ("salsa20", { internalName := "Salsa20", keyLen := 32, ivLen := 8, type := .STREAM }),
    ("seed-cfb", { internalName := "SEED/CFB", keyLen := 16, ivLen := 16, type := .STREAM }),
    ("serpent-256-cfb", { internalName := "Serpent/CFB", keyLen := 32, ivLen := 16, type := .STREAM }) ]

/-!
## The cipher instance and its backends

Modelled from the spec: every STREAM-category primitive (the dedicated RC4
and ChaCha engines, whose sources `rc4.cpp`/`chacha.cpp` are not under
`src/`, and Botan's stream / streaming-mode block ciphers reached through
`get_cipher`) is a self-synchronising stream transform: the byte at position
`i` of the output is the input byte XORed with a pad value computed from the
key, the IV and the ciphertext bytes before position `i`. This covers pure
keystream ciphers (the pad ignores the ciphertext history and depends only on
its length), CTR modes, and CFB modes (the pad is the block cipher applied to
the previous ciphertext block). The pad function is fixed by
`(primitive, key, iv)` and is the same for the encrypt and the decrypt
direction — the defining property of these modes, per spec §4.3. -/

/-- Encrypt with a self-synchronising stream transform. `hist` is the
ciphertext produced so far (the pad's input). -/
def encStream (pad : List Nat → Nat) : List Nat → List Nat → List Nat
  | _, [] => []
  | hist, p :: ps =>
    let c := p ^^^ pad hist
    c :: encStream pad (hist ++ [c]) ps

/-- Decrypt with a self-synchronising stream transform. `hist` is the
ciphertext consumed so far. -/
def decStream (pad : List Nat → Nat) : List Nat → List Nat → List Nat
  | _, [] => []
  | hist, c :: cs => (c ^^^ pad hist) :: decStream pad (hist ++ [c]) cs

/-- Modelled from the spec: the external crypto provider plus the
repository's dedicated engines (not under `src/`).
* `getCipher` is Botan's `get_cipher(internalName, key, iv, dir)`: it either
  raises (`.error`, e.g. on a key/IV length mismatch or an unknown primitive)
  or yields the primitive's pad function. Whether it raises and which pad it
  yields depend only on `(name, key, iv)`, not on the direction.
* `probe` is the keyless `get_cipher(name, ENCRYPTION)` used by `isSupported`.
* `rc4Pad key iv` / `chachaPad key iv` are the keystreams of the dedicated
  RC4 and ChaCha engines (stream ciphers: the pad ignores the ciphertext
  contents). -/
structure CryptoEnv where
  getCipher : String → List Nat → List Nat → Except String (List Nat → Nat)
  probe : String → Except String Unit
  rc4Pad : List Nat → List Nat → List Nat → Nat
  chachaPad : List Nat → List Nat → List Nat → Nat

/-- State of one backend: its pad function, the ciphertext history consumed
or produced so far, and the bound direction. -/
structure BackendState where
  pad : List Nat → Nat
  hist : List Nat
  enc : Bool

/-- Advance a backend on one `update` call. -/
def stepBackend (st : BackendState) (data : List Nat) : List Nat × BackendState :=
  if st.enc then
    let c := encStream st.pad st.hist data
    (c, { st with hist := st.hist ++ c })
  else
    (decStream st.pad st.hist data, { st with hist := st.hist ++ data })

/-- The `Cipher` instance: the bound key and IV, the resolved `CipherInfo`,
and the three optionally-initialised backends (`std::unique_ptr` fields
`rc4`, `chacha`, `pipe` of the source; `none` models a null pointer). -/
structure Cipher where
  key : List Nat
  iv : List Nat
  cipherInfo : CipherInfo
  rc4 : Option BackendState
  chacha : Option BackendState
  pipe : Option BackendState

/-- `Cipher::Cipher(method, psKey, iv, encrypt)` (cipher.cpp lines 52–96).
`none` models a construction failure: an unknown method
(`cipherInfoMap.at` throws) or a provider error (`qFatal`). Dispatch order as
in the source: the `"rc4"` substring test first; then, only when the provider
lacks native ChaCha (`!botan2`, i.e. `#ifndef USE_BOTAN2`), the `"chacha20"`
substring test; otherwise the generic Botan keyed-filter pipe. -/
def mkCipher (botan2 : Bool) (env : CryptoEnv) (method : String)
    (key iv : List Nat) (encrypt : Bool) : Option Cipher :=
  match lookupInfo botan2 method with
  | none => none
  | some info =>
    if containsStr method "rc4" then
      some { key := key, iv := iv, cipherInfo := info,
             rc4 := some ⟨env.rc4Pad key iv, [], encrypt⟩, chacha := none, pipe := none }
    else if !botan2 && containsStr method "chacha20" then
      some { key := key, iv := iv, cipherInfo := info,
             rc4 := none, chacha := some ⟨env.chachaPad key iv, [], encrypt⟩, pipe := none }
    else
      match env.getCipher info.internalName key iv with
      | .ok pad =>
        some { key := key, iv := iv, cipherInfo := info,
               rc4 := none, chacha := none, pipe := some ⟨pad, [], encrypt⟩ }
      | .error _ => none

/-- The one error `Cipher::update` can raise itself: the
`std::logic_error("Underlying ciphers are all uninitialised!")`. -/
inductive UpdateErr where
  | backendUninitialised
deriving DecidableEq

/-- `Cipher::update(data)` (cipher.cpp lines 130–145). Backend tests in
source order: `chacha`, then `rc4`, then `pipe`; if all are null it throws
the logic error. Returns the transformed bytes and the advanced instance. -/
def Cipher.update (c : Cipher) (data : List Nat) :
    Except UpdateErr (List Nat × Cipher) :=
  match c.chacha with
  | some st =>
    .ok ((stepBackend st data).1, { c with chacha := some (stepBackend st data).2 })
  | none =>
    match c.rc4 with
    | some st =>
      .ok ((stepBackend st data).1, { c with rc4 := some (stepBackend st data).2 })
    | none =>
      match c.pipe with
      | some st =>
        .ok ((stepBackend st data).1, { c with pipe := some (stepBackend st data).2 })
      | none => .error .backendUninitialised

/-- `Cipher::getIV()`. -/
def Cipher.getIV (c : Cipher) : List Nat := c.iv

/-- Run a sequence of `update` calls, keeping the state; a failing call
leaves the instance unchanged (the C++ throw modifies nothing). -/
def iterUpdate (c : Cipher) : List (List Nat) → Cipher
  | [] => c
  | d :: ds =>
    match c.update d with
    | .ok (_, c') => iterUpdate c' ds
    | .error _ => iterUpdate c ds

/-- Did the keyless provider probe succeed? This is the `try`/`catch` of
`Cipher::isSupported`: a provider exception becomes `false`. -/
def probeOk (env : CryptoEnv) (name : String) : Bool :=
  match env.probe name with
  | .ok _ => true
  | .error _ => false

/-- `Cipher::isSupported(method)` (cipher.cpp lines 184–200). The argument is
an *internal* name when called from `supportedMethods`. The `"chacha20"`
shortcut exists only without native ChaCha (`#ifndef USE_BOTAN2`); the
`"rc4"` test guards the provider probe; both are case-sensitive substring
searches. -/
def isSupported (botan2 : Bool) (env : CryptoEnv) (method : String) : Bool :=
  if !botan2 && containsStr method "chacha20" then true
  else if containsStr method "rc4" then true
  else probeOk env method

/-- `Cipher::supportedMethods()` (cipher.cpp lines 202–211): collect every
user name of the registry whose descriptor's `internalName` passes
`isSupported`. -/
def supportedMethods (botan2 : Bool) (env : CryptoEnv) : List String :=
  (cipherInfoMap botan2).filterMap
    (fun p => if isSupported botan2 env p.2.internalName then some p.1 else none)

/-- `Cipher::randomIv(int length)` (cipher.cpp lines 152–162). The provider's
auto-seeded RNG is modelled as a byte stream `rng : Nat → Nat`; a call of
length `n > 0` draws the `n` bytes `rng 0, …, rng (n-1)`. -/
def randomIv (rng : Nat → Nat) (length : Nat) : List Nat :=
  if length = 0 then [] else (List.range length).map rng

/-- `Cipher::randomIv(const std::string &method)` (cipher.cpp lines 164–167):
`randomIv(cipherInfoMap.at(method).ivLen)`; `none` models the throw on an
unknown method. -/
def randomIvMethod (botan2 : Bool) (rng : Nat → Nat) (method : String) :
    Option (List Nat) :=
  (lookupInfo botan2 method).map (fun info => randomIv rng info.ivLen)

/-- A provider for witnesses in which every construction succeeds. -/
def envAllOk : CryptoEnv :=
  { getCipher := fun _ _ _ => .ok (fun _ => 0)
    probe := fun _ => .ok ()
    rc4Pad := fun _ _ _ => 0
    chachaPad := fun _ _ _ => 0 }

/-- A provider for witnesses in which every provider call raises. -/
def envAllFail : CryptoEnv :=
  { getCipher := fun _ _ _ => .error "unavailable"
    probe := fun _ => .error "unavailable"
    rc4Pad := fun _ _ _ => 0
    chachaPad := fun _ _ _ => 0 }

/-- A default instance value, used only to name concrete constructed
instances in witness statements. -/
def dummyCipher : Cipher :=
  { key := [], iv := [],
    cipherInfo := { internalName := "", keyLen := 0, ivLen := 0, type := .STREAM },
    rc4 := none, chacha := none, pipe := none }

/-- The instance constructed for the C2 witness. -/
def c2inst : Cipher :=
  (mkCipher false envAllOk "rc4-md5"
    (List.replicate 16 0) (List.replicate 16 0) true).getD dummyCipher

/-- Are all three backend pointers null? (`update`'s failure condition.) -/
def noBackend (c : Cipher) : Bool :=
  c.rc4.isNone && c.chacha.isNone && c.pipe.isNone

/-- Number of initialised backends. -/
def backendCount (c : Cipher) : Nat :=
  (if c.rc4.isSome then 1 else 0) + (if c.chacha.isSome then 1 else 0) +
    (if c.pipe.isSome then 1 else 0)

/-- Does an `update` call throw? -/
def updateFails (c : Cipher) (d : List Nat) : Bool :=
  match c.update d with
  | .ok _ => false
  | .error _ => true

/-- The instance constructed for the C3 witness. -/
def c3inst : Cipher :=
  (mkCipher false envAllOk "aes-256-cfb"
    (List.replicate 32 0) (List.replicate 16 0) true).getD dummyCipher

/-- The instance constructed for the C10 witness. -/
def c10inst : Cipher :=
  (mkCipher true envAllOk "chacha20"
    (List.replicate 32 1) (List.replicate 8 2) false).getD dummyCipher

/-- The result of one `update` call, with a default for the throwing case;
used only to phrase closed witness statements. -/
def updOut (c : Cipher) (d : List Nat) : List Nat × Cipher :=
  (c.update d).toOption.getD ([], dummyCipher)

/-- Feed `p` through one `update` of `cE` and the result through one
`update` of `cD`; `none` if either call throws. -/
def roundtripResult (cE cD : Cipher) (p : List Nat) : Option (List Nat) :=
  match cE.update p with
  | .ok (ct, _) =>
    match cD.update ct with
    | .ok (res, _) => some res
    | .error _ => none
  | .error _ => none

/-- Encrypt-direction instance for the C4 witness. -/
def c4encInst : Cipher :=
  (mkCipher false envAllOk "aes-256-cfb"
    (List.replicate 32 0) (List.replicate 16 0) true).getD dummyCipher

/-- Decrypt-direction instance for the C4 witness. -/
def c4decInst : Cipher :=
  (mkCipher false envAllOk "aes-256-cfb"
    (List.replicate 32 0) (List.replicate 16 0) false).getD dummyCipher

/-!
## HMAC-SHA-1 and HKDF

`Cipher::hmacSha1` delegates to Qt's `QMessageAuthenticationCode`
(HMAC-SHA-1) and `Cipher::deriveSubkey` to Botan's `HKDF` over
`HMAC(SHA-160)`; both primitives are external to the repository. Modelled
from the spec: HMAC-SHA-1 per RFC 2104 over SHA-1, and HKDF as
Extract-and-Expand. SHA-1 itself is implemented in full (words are `Nat`
values reduced mod `2^32`). -/

/-- Rotate a 32-bit word left by `n` bits. -/
def rotl32 (n x : Nat) : Nat :=
  ((x <<< n) % 4294967296) ||| ((x % 4294967296) >>> (32 - n))

/-- Big-endian bytes of a 32-bit word. -/
def wordBytesBE (w : Nat) : List Nat :=
  [w / 16777216 % 256, w / 65536 % 256, w / 256 % 256, w % 256]

/-- Pack bytes into big-endian 32-bit words (complete groups of four). -/
def bytesToWordsBE : List Nat → List Nat
  | b0 :: b1 :: b2 :: b3 :: rest =>
    (((b0 * 256 + b1) * 256 + b2) * 256 + b3) :: bytesToWordsBE rest
  | _ => []

/-- Big-endian bytes of a 64-bit length field. -/
def word64BE (n : Nat) : List Nat :=
  [n / 2 ^ 56 % 256, n / 2 ^ 48 % 256, n / 2 ^ 40 % 256, n / 2 ^ 32 % 256,
   n / 2 ^ 24 % 256, n / 2 ^ 16 % 256, n / 2 ^ 8 % 256, n % 256]

/-- SHA-1 message padding: `0x80`, zeros to 56 mod 64, 64-bit bit length. -/
def sha1Pad (msg : List Nat) : List Nat :=
  msg ++ [128] ++ List.replicate ((119 - msg.length % 64) % 64) 0 ++
    word64BE (msg.length * 8)

/-- Split into 64-byte blocks (fuel-driven so the kernel can evaluate it). -/
def chunks64 : Nat → List Nat → List (List Nat)
  | 0, _ => []
  | _, [] => []
  | fuel + 1, l => l.take 64 :: chunks64 fuel (l.drop 64)

/-- The SHA-1 round function. -/
def sha1F (t b c d : Nat) : Nat :=
  if t < 20 then (b &&& c) ||| ((b ^^^ 4294967295) &&& d)
  else if t < 40 then b ^^^ c ^^^ d
  else if t < 60 then (b &&& c) ||| (b &&& d) ||| (c &&& d)
  else b ^^^ c ^^^ d

/-- The SHA-1 round constants. -/
def sha1K (t : Nat) : Nat :=
  if t < 20 then 0x5A827999
  else if t < 40 then 0x6ED9EBA1
  else if t < 60 then 0x8F1BBCDC
  else 0xCA62C1D6

/-- The five SHA-1 chaining words. -/
structure SHA1State where
  a : Nat
  b : Nat
  c : Nat
  d : Nat
  e : Nat

/-- Extend the 16 schedule words by `k` more. -/
def sha1Extend (w : List Nat) : Nat → List Nat
  | 0 => w
  | k + 1 =>
    sha1Extend (w ++ [rotl32 1 ((w.getD (w.length - 3) 0) ^^^ (w.getD (w.length - 8) 0) ^^^
      (w.getD (w.length - 14) 0) ^^^ (w.getD (w.length - 16) 0))]) k

/-- The 80 SHA-1 rounds over the schedule words. -/
def sha1Rounds : List Nat → Nat → SHA1State → SHA1State
  | [], _, st => st
  | w :: ws, t, st =>
    sha1Rounds ws (t + 1)
      { a := (rotl32 5 st.a + sha1F t st.b st.c st.d + st.e + sha1K t + w) % 4294967296,
        b := st.a, c := rotl32 30 st.b, d := st.c, e := st.d }

/-- One SHA-1 compression over a 64-byte block. -/
def sha1Compress (st : SHA1State) (block : List Nat) : SHA1State :=
  let r := sha1Rounds (sha1Extend (bytesToWordsBE block) 64) 0 st
  { a := (st.a + r.a) % 4294967296, b := (st.b + r.b) % 4294967296,
    c := (st.c + r.c) % 4294967296, d := (st.d + r.d) % 4294967296,
    e := (st.e + r.e) % 4294967296 }

/-- The SHA-1 initial state. -/
def sha1Init : SHA1State :=
  { a := 0x67452301, b := 0xEFCDAB89, c := 0x98BADCFE, d := 0x10325476, e := 0xC3D2E1F0 }

/-- SHA-1 of a byte string, as 20 bytes. -/
def sha1 (msg : List Nat) : List Nat :=
  let st := (chunks64 (sha1Pad msg).length (sha1Pad msg)).foldl sha1Compress sha1Init
  wordBytesBE st.a ++ wordBytesBE st.b ++ wordBytesBE st.c ++ wordBytesBE st.d ++
    wordBytesBE st.e

/-- RFC 2104 key normalisation: hash an over-long key, pad to 64 bytes. -/
def hmacKeyPad (key : List Nat) : List Nat :=
  (if 64 < key.length then sha1 key else key) ++
    List.replicate (64 - (if 64 < key.length then sha1 key else key).length) 0

/-- Modelled from the spec: full HMAC-SHA-1 (the Qt provider primitive behind
`Cipher::hmacSha1`), 20 bytes. -/
def hmacSha1Full (key msg : List Nat) : List Nat :=
  sha1 ((hmacKeyPad key).map (fun x => x ^^^ 92) ++
    sha1 ((hmacKeyPad key).map (fun x => x ^^^ 54) ++ msg))

/-- `Cipher::AUTH_LEN` (cipher.cpp line 128). -/
def AUTH_LEN : Nat := 10

/-- `Cipher::hmacSha1(key, msg)` (cipher.cpp lines 169–175): the full tag
truncated with `.left(AUTH_LEN)` — the *first* 10 bytes. -/
def hmacSha1 (key msg : List Nat) : List Nat :=
  (hmacSha1Full key msg).take AUTH_LEN

/-- Bytes of an ASCII string (C++ `std::string` contents). -/
def strToBytes (s : String) : List Nat := s.toList.map Char.toNat

/-- `Cipher::kdfLabel` (cipher.cpp line 127). -/
def kdfLabel : String := "ss-subkey"

/-- HKDF-Expand output blocks: `T(i) = HMAC(prk, T(i-1) ++ info ++ [i])`,
`k` blocks starting at counter `i` with previous block `prev`. -/
def hkdfOkm (prk info : List Nat) : List Nat → Nat → Nat → List Nat
  | _, _, 0 => []
  | prev, i, k + 1 =>
    hmacSha1Full prk (prev ++ info ++ [i]) ++
      hkdfOkm prk info (hmacSha1Full prk (prev ++ info ++ [i])) (i + 1) k

/-- Modelled from the spec: HKDF-Extract-and-Expand over HMAC-SHA-1 (Botan's
`HKDF(HMAC(SHA-160))::derive_key`, external to the repository):
`prk = HMAC(salt, ikm)`, then expand with `info` to `outLen` bytes. -/
def hkdf (outLen : Nat) (ikm salt info : List Nat) : List Nat :=
  (hkdfOkm (hmacSha1Full salt ikm) info [] 1 ((outLen + 19) / 20)).take outLen

/-- `Cipher::deriveSubkey()` (cipher.cpp lines 218–225): a fresh random salt
of `saltLen` bytes, then `kdf->derive_key(keyLen, key, salt, kdfLabel)`; only
the derived key is returned. -/
def Cipher.deriveSubkey (rng : Nat → Nat) (c : Cipher) : List Nat :=
  hkdf c.cipherInfo.keyLen c.key (randomIv rng c.cipherInfo.saltLen) (strToBytes kdfLabel)

/-- The RNG stream used by witnesses. -/
def rngZero : Nat → Nat := fun _ => 0

/-- The registry descriptor of `aes-256-gcm`. -/
def gcmInfo : CipherInfo :=
  { internalName := "AES-128/GCM", keyLen := 32, ivLen := 12,
    type := .AEAD, saltLen := 32, tagLen := 16 }

/-- The AEAD instance constructed for the C9 witness. -/
def c9inst : Cipher :=
  (mkCipher true envAllOk "aes-256-gcm"
    (List.replicate 32 7) (List.replicate 12 9) true).getD dummyCipher

/-!
## Theorems
-/

/-- C1: every method name in the spec's catalogue table looks up successfully
to exactly the listed descriptor (the 20 STREAM rows under either provider
flag; the `aes-256-gcm` AEAD row when it is available, with internal name
`AES-128/GCM`, key length 32, IV length 12, salt length 32, tag length 16 —
in particular `chacha20` maps to key 32 / IV 8 and `chacha20-ietf` to key 32 /
IV 12), and every catalogue entry has `keyLen > 0`. -/
theorem registry_matches_spec_catalogue :
    (∀ b : Bool, specStreamRows.all (fun p => lookupInfo b p.1 == some p.2) = true)
  ∧ lookupInfo true "aes-256-gcm" =
      some { internalName := "AES-128/GCM", keyLen := 32, ivLen := 12,
             type := CipherType.AEAD, saltLen := 32, tagLen := 16 }
  ∧ lookupInfo false "chacha20" =
      some { internalName := "ChaCha", keyLen := 32, ivLen := 8, type := CipherType.STREAM }
  ∧ lookupInfo false "chacha20-ietf" =
      some { internalName := "ChaCha", keyLen := 32, ivLen := 12, type := CipherType.STREAM }
  ∧ (∀ b : Bool, (cipherInfoMap b).all (fun p => decide (0 < p.2.keyLen)) = true) := by
  refine ⟨fun b => ?_, by decide, by decide, by decide, fun b => ?_⟩ <;> cases b <;> decide

/-- C2: constructor dispatch is first-match-wins: a method name containing
`"rc4"` yields the dedicated RC4 engine; otherwise, without native ChaCha
and with the name containing `"chacha20"`, the dedicated ChaCha engine;
otherwise the generic keyed-filter pipe. -/
theorem constructor_dispatch (b : Bool) (env : CryptoEnv) (method : String)
    (key iv : List Nat) (e : Bool) (c : Cipher)
    (h : mkCipher b env method key iv e = some c) :
    (containsStr method "rc4" = true →
      c.rc4 = some ⟨env.rc4Pad key iv, [], e⟩ ∧ c.chacha = none ∧ c.pipe = none)
  ∧ (containsStr method "rc4" = false → (!b && containsStr method "chacha20") = true →
      c.chacha = some ⟨env.chachaPad key iv, [], e⟩ ∧ c.rc4 = none ∧ c.pipe = none)
  ∧ (containsStr method "rc4" = false → (!b && containsStr method "chacha20") = false →
      c.pipe.isSome = true ∧ c.rc4 = none ∧ c.chacha = none) := by
  cases hl : lookupInfo b method with
  | none => simp [mkCipher, hl] at h
  | some info =>
    simp only [mkCipher, hl] at h
    cases h1 : containsStr method "rc4" with
    | true =>
      rw [h1] at h
      simp only [if_true] at h
      cases h
      refine ⟨fun _ => ⟨rfl, rfl, rfl⟩, ?_, ?_⟩ <;> (intro hf; exact nomatch hf)
    | false =>
      rw [h1] at h
      simp only [Bool.false_eq_true, if_false] at h
      cases h2 : (!b && containsStr method "chacha20") with
      | true =>
        rw [h2] at h
        simp only [if_true] at h
        cases h
        refine ⟨?_, fun _ _ => ⟨rfl, rfl, rfl⟩, ?_⟩
        · intro hf
          exact nomatch hf
        · intro _ hf
          exact nomatch hf
      | false =>
        rw [h2] at h
        simp only [Bool.false_eq_true, if_false] at h
        cases hg : env.getCipher info.internalName key iv with
        | ok pad =>
          rw [hg] at h
          cases h
          refine ⟨?_, ?_, fun _ _ => ⟨rfl, rfl, rfl⟩⟩
          · intro hf
            exact nomatch hf
          · intro _ hf
            exact nomatch hf
        | error err => rw [hg] at h; cases h

/-- Witness for C2: constructing `rc4-md5` succeeds and the backend is the
RC4 engine. -/
theorem constructor_dispatch_witness :
    mkCipher false envAllOk "rc4-md5"
      (List.replicate 16 0) (List.replicate 16 0) true = some c2inst
  ∧ c2inst.rc4 =
      some ⟨envAllOk.rc4Pad (List.replicate 16 0) (List.replicate 16 0), [], true⟩
  ∧ c2inst.chacha = none ∧ c2inst.pipe = none :=
  ⟨rfl, (constructor_dispatch false envAllOk "rc4-md5"
    (List.replicate 16 0) (List.replicate 16 0) true c2inst rfl).1 rfl⟩

/-- C6: `isSupported` never propagates a provider error: it is `true` for a
name containing `"rc4"`, `true` for a name containing `"chacha20"` when the
provider lacks native ChaCha, and otherwise equals the outcome of the
provider probe — `true` on success, `false` (not a raise) when the provider
raises. -/
theorem isSupported_semantics (b : Bool) (env : CryptoEnv) (m : String) :
    isSupported b env m =
      (containsStr m "rc4" || (!b && containsStr m "chacha20") || probeOk env m) := by
  unfold isSupported
  cases h1 : (!b && containsStr m "chacha20") <;>
    cases h2 : containsStr m "rc4" <;> simp [h1, h2]

/-- Case analysis of a successful construction: the resolved descriptor, the
copied key/IV, and the exact shape (including the freshly initialised single
backend) in each of the three dispatch branches. -/
theorem mkCipher_cases {b : Bool} {env : CryptoEnv} {method : String}
    {key iv : List Nat} {e : Bool} {c : Cipher}
    (h : mkCipher b env method key iv e = some c) :
    ∃ info, lookupInfo b method = some info ∧
    ( (containsStr method "rc4" = true ∧
        c = { key := key, iv := iv, cipherInfo := info,
              rc4 := some ⟨env.rc4Pad key iv, [], e⟩, chacha := none, pipe := none })
    ∨ (containsStr method "rc4" = false ∧ (!b && containsStr method "chacha20") = true ∧
        c = { key := key, iv := iv, cipherInfo := info,
              rc4 := none, chacha := some ⟨env.chachaPad key iv, [], e⟩, pipe := none })
    ∨ (containsStr method "rc4" = false ∧ (!b && containsStr method "chacha20") = false ∧
        ∃ pad, env.getCipher info.internalName key iv = .ok pad ∧
        c = { key := key, iv := iv, cipherInfo := info,
              rc4 := none, chacha := none, pipe := some ⟨pad, [], e⟩ })) := by
  cases hl : lookupInfo b method with
  | none => simp [mkCipher, hl] at h
  | some info =>
    refine ⟨info, rfl, ?_⟩
    simp only [mkCipher, hl] at h
    cases h1 : containsStr method "rc4" with
    | true =>
      rw [h1] at h
      simp only [if_true] at h
      cases h
      exact .inl ⟨rfl, rfl⟩
    | false =>
      rw [h1] at h
      simp only [Bool.false_eq_true, if_false] at h
      cases h2 : (!b && containsStr method "chacha20") with
      | true =>
        rw [h2] at h
        simp only [if_true] at h
        cases h
        exact .inr (.inl ⟨rfl, rfl, rfl⟩)
      | false =>
        rw [h2] at h
        simp only [Bool.false_eq_true, if_false] at h
        cases hg : env.getCipher info.internalName key iv with
        | ok pad =>
          rw [hg] at h
          cases h
          exact .inr (.inr ⟨rfl, rfl, pad, rfl, rfl⟩)
        | error err => rw [hg] at h; cases h

/-- A successful `update` keeps the key, the IV, the descriptor, and the
presence of each backend. -/
theorem update_fields {c : Cipher} {d out : List Nat} {c' : Cipher}
    (h : c.update d = .ok (out, c')) :
    c'.key = c.key ∧ c'.iv = c.iv ∧ c'.cipherInfo = c.cipherInfo ∧
    c'.rc4.isSome = c.rc4.isSome ∧ c'.chacha.isSome = c.chacha.isSome ∧
    c'.pipe.isSome = c.pipe.isSome := by
  unfold Cipher.update at h
  cases hch : c.chacha with
  | some st =>
    rw [hch] at h
    cases h
    simp [hch]
  | none =>
    rw [hch] at h
    cases hr : c.rc4 with
    | some st =>
      rw [hr] at h
      cases h
      simp [hch, hr]
    | none =>
      rw [hr] at h
      cases hp : c.pipe with
      | some st =>
        rw [hp] at h
        cases h
        simp [hch, hr, hp]
      | none => rw [hp] at h; cases h

/-- `update` throws the logic error exactly when all three backends are null. -/
theorem update_error_characterisation (c : Cipher) (d : List Nat) :
    c.update d = .error .backendUninitialised ↔ noBackend c = true := by
  obtain ⟨k, i, ci, r, ch, p⟩ := c
  cases r <;> cases ch <;> cases p <;>
    simp [Cipher.update, noBackend]

/-- One backend initialised means `update` does not throw. -/
theorem updateFails_of_count {c : Cipher} (h : backendCount c = 1) (d : List Nat) :
    updateFails c d = false := by
  obtain ⟨k, i, ci, r, ch, p⟩ := c
  cases r <;> cases ch <;> cases p <;>
    simp_all [backendCount, updateFails, Cipher.update]

/-- A successful `update` preserves the number of initialised backends. -/
theorem backendCount_update {c : Cipher} {d out : List Nat} {c' : Cipher}
    (h : c.update d = .ok (out, c')) : backendCount c' = backendCount c := by
  obtain ⟨-, -, -, h4, h5, h6⟩ := update_fields h
  simp [backendCount, h4, h5, h6]

/-- `iterUpdate` preserves the number of initialised backends. -/
theorem backendCount_iterUpdate (ds : List (List Nat)) :
    ∀ c : Cipher, backendCount (iterUpdate c ds) = backendCount c := by
  induction ds with
  | nil => intro c; rfl
  | cons d ds ih =>
    intro c
    unfold iterUpdate
    cases hu : c.update d with
    | ok p =>
      obtain ⟨o, c'⟩ := p
      rw [ih c', backendCount_update hu]
    | error err => exact ih c

/-- `iterUpdate` preserves the key, the IV and the descriptor. -/
theorem iterUpdate_fields (ds : List (List Nat)) :
    ∀ c : Cipher, (iterUpdate c ds).key = c.key ∧ (iterUpdate c ds).iv = c.iv ∧
      (iterUpdate c ds).cipherInfo = c.cipherInfo := by
  induction ds with
  | nil => intro c; exact ⟨rfl, rfl, rfl⟩
  | cons d ds ih =>
    intro c
    unfold iterUpdate
    cases hu : c.update d with
    | ok p =>
      obtain ⟨o, c'⟩ := p
      obtain ⟨h1, h2, h3, -⟩ := update_fields hu
      obtain ⟨g1, g2, g3⟩ := ih c'
      exact ⟨g1.trans h1, g2.trans h2, g3.trans h3⟩
    | error err => exact ih c

/-- C3: a successfully constructed instance has exactly one initialised
backend, this persists across every sequence of `update` calls, `update`
raises `BackendUninitialised` exactly when no backend is initialised, and
hence never raises on a (possibly updated) successfully constructed
instance. -/
theorem exactly_one_backend (b : Bool) (env : CryptoEnv) (method : String)
    (key iv : List Nat) (e : Bool) (c : Cipher)
    (h : mkCipher b env method key iv e = some c)
    (ds : List (List Nat)) (d : List Nat) (c' : Cipher) :
    backendCount c = 1
  ∧ backendCount (iterUpdate c ds) = 1
  ∧ (c'.update d = .error .backendUninitialised ↔ noBackend c' = true)
  ∧ updateFails (iterUpdate c ds) d = false := by
  have hbc : backendCount c = 1 := by
    obtain ⟨info, -, hc⟩ := mkCipher_cases h
    rcases hc with ⟨-, rfl⟩ | ⟨-, -, rfl⟩ | ⟨-, -, pad, -, rfl⟩ <;> rfl
  have hiter : backendCount (iterUpdate c ds) = 1 :=
    (backendCount_iterUpdate ds c).trans hbc
  exact ⟨hbc, hiter, update_error_characterisation c' d,
         updateFails_of_count hiter d⟩

/-- Witness for C3 at `aes-256-cfb` with an all-accepting provider, one
update step, and `dummyCipher` (which has no backend) for the error side. -/
theorem exactly_one_backend_witness :
    backendCount c3inst = 1
  ∧ backendCount (iterUpdate c3inst [[1, 2, 3]]) = 1
  ∧ (dummyCipher.update [] = .error .backendUninitialised ↔ noBackend dummyCipher = true)
  ∧ updateFails (iterUpdate c3inst [[1, 2, 3]]) [4] = false :=
  exactly_one_backend false envAllOk "aes-256-cfb"
    (List.replicate 32 0) (List.replicate 16 0) true c3inst rfl
    [[1, 2, 3]] [4] dummyCipher

/-- C10: `getIV` returns exactly the IV bound at construction, also after any
sequence of `update` calls; a successful `update` changes neither the key,
nor the IV, nor the resolved descriptor. -/
theorem update_frame (b : Bool) (env : CryptoEnv) (method : String)
    (key iv : List Nat) (e : Bool) (c : Cipher)
    (h : mkCipher b env method key iv e = some c)
    (ds : List (List Nat)) (c1 : Cipher) (d out : List Nat) (c2 : Cipher)
    (hu : c1.update d = .ok (out, c2)) :
    c.getIV = iv
  ∧ (iterUpdate c ds).getIV = iv
  ∧ (iterUpdate c ds).key = key
  ∧ (iterUpdate c ds).cipherInfo = c.cipherInfo
  ∧ c2.key = c1.key ∧ c2.iv = c1.iv ∧ c2.cipherInfo = c1.cipherInfo := by
  have hshape : c.key = key ∧ c.iv = iv := by
    obtain ⟨info, -, hc⟩ := mkCipher_cases h
    rcases hc with ⟨-, rfl⟩ | ⟨-, -, rfl⟩ | ⟨-, -, pad, -, rfl⟩ <;> exact ⟨rfl, rfl⟩
  obtain ⟨g1, g2, g3⟩ := iterUpdate_fields ds c
  obtain ⟨f1, f2, f3, -⟩ := update_fields hu
  exact ⟨hshape.2, g2.trans hshape.2, g1.trans hshape.1, g3, f1, f2, f3⟩

/-- Witness for C10 at `chacha20` (Botan 2 provider, generic pipe), two
update calls, plus a concrete single successful update step. -/
theorem update_frame_witness :
    c10inst.getIV = List.replicate 8 2
  ∧ (iterUpdate c10inst [[9], [8, 7]]).getIV = List.replicate 8 2
  ∧ (iterUpdate c10inst [[9], [8, 7]]).key = List.replicate 32 1
  ∧ (iterUpdate c10inst [[9], [8, 7]]).cipherInfo = c10inst.cipherInfo
  ∧ (updOut c10inst [5]).2.key = c10inst.key
  ∧ (updOut c10inst [5]).2.iv = c10inst.iv
  ∧ (updOut c10inst [5]).2.cipherInfo = c10inst.cipherInfo :=
  update_frame true envAllOk "chacha20"
    (List.replicate 32 1) (List.replicate 8 2) false c10inst rfl
    [[9], [8, 7]] c10inst [5]
    (updOut c10inst [5]).1 (updOut c10inst [5]).2 rfl

/-- Decrypting what was just encrypted from the same ciphertext history
returns the plaintext: the pad at each position is recomputed identically. -/
theorem decStream_encStream (pad : List Nat → Nat) :
    ∀ (p hist : List Nat), decStream pad hist (encStream pad hist p) = p := by
  intro p
  induction p with
  | nil => intro hist; rfl
  | cons x xs ih =>
    intro hist
    simp only [encStream, decStream, List.cons.injEq]
    exact ⟨by rw [Nat.xor_assoc, Nat.xor_self, Nat.xor_zero], ih _⟩

/-- C4: for every registered STREAM method, key of length `keyLen`, IV of
length `ivLen` and byte string `p`, a single `update` on an encrypt-direction
instance followed by a single `update` on a decrypt-direction instance
constructed with the same `(method, key, iv)` returns `p`. -/
theorem stream_roundtrip (b : Bool) (env : CryptoEnv) (method : String)
    (key iv p : List Nat) (info : CipherInfo)
    (_hinfo : lookupInfo b method = some info)
    (_hstream : info.type = CipherType.STREAM)
    (_hkey : key.length = info.keyLen) (_hiv : iv.length = info.ivLen)
    (cE cD : Cipher)
    (hE : mkCipher b env method key iv true = some cE)
    (hD : mkCipher b env method key iv false = some cD) :
    roundtripResult cE cD p = some p := by
  obtain ⟨i1, hl1, hc1⟩ := mkCipher_cases hE
  obtain ⟨i2, hl2, hc2⟩ := mkCipher_cases hD
  have hi : i1 = i2 := by
    have := hl1.symm.trans hl2
    exact Option.some.inj this
  subst hi
  rcases hc1 with ⟨t1, rfl⟩ | ⟨f1, t2, rfl⟩ | ⟨f1, f2, pad1, hg1, rfl⟩
  · rcases hc2 with ⟨-, rfl⟩ | ⟨f1', -, -⟩ | ⟨f1', -, -⟩
    · simp [roundtripResult, Cipher.update, stepBackend, decStream_encStream]
    · exact nomatch t1.symm.trans f1'
    · exact nomatch t1.symm.trans f1'
  · rcases hc2 with ⟨t1', rfl⟩ | ⟨-, -, rfl⟩ | ⟨-, f2', -⟩
    · exact nomatch f1.symm.trans t1'
    · simp [roundtripResult, Cipher.update, stepBackend, decStream_encStream]
    · exact nomatch t2.symm.trans f2'
  · rcases hc2 with ⟨t1', rfl⟩ | ⟨-, t2', -⟩ | ⟨-, -, pad2, hg2, rfl⟩
    · exact nomatch f1.symm.trans t1'
    · exact nomatch f2.symm.trans t2'
    · have hp : pad1 = pad2 := by
        have := hg1.symm.trans hg2
        exact Except.ok.inj this
      subst hp
      simp [roundtripResult, Cipher.update, stepBackend, decStream_encStream]

/-- Witness for C4: a concrete round trip through `aes-256-cfb`. -/
theorem stream_roundtrip_witness :
    roundtripResult c4encInst c4decInst [10, 20, 30] = some [10, 20, 30] :=
  stream_roundtrip false envAllOk "aes-256-cfb"
    (List.replicate 32 0) (List.replicate 16 0) [10, 20, 30]
    { internalName := "AES-256/CFB", keyLen := 32, ivLen := 16, type := .STREAM }
    (by decide) rfl (by decide) (by decide) c4encInst c4decInst rfl rfl

/-- On a list whose entries' internal names contain neither `"rc4"` nor
`"chacha20"`, the `isSupported` filter coincides with the bare provider
probe. -/
theorem supported_filter_eq (env : CryptoEnv) (b : Bool) :
    ∀ l : List (String × CipherInfo),
      (l.all fun p => !(containsStr p.2.internalName "rc4") &&
        !(containsStr p.2.internalName "chacha20")) = true →
      l.filterMap (fun p => if isSupported b env p.2.internalName then some p.1 else none) =
        l.filterMap (fun p => if probeOk env p.2.internalName then some p.1 else none) := by
  intro l
  induction l with
  | nil => intro _; rfl
  | cons a l ih =>
    intro h
    simp only [List.all_cons, Bool.and_eq_true, Bool.not_eq_true'] at h
    obtain ⟨⟨h1, h2⟩, hrest⟩ := h
    have hhead : isSupported b env a.2.internalName = probeOk env a.2.internalName := by
      simp [isSupported, h1, h2]
    have hr : (l.all fun p => !(containsStr p.2.internalName "rc4") &&
        !(containsStr p.2.internalName "chacha20")) = true := by
      simp only [List.all_eq_true, Bool.and_eq_true, Bool.not_eq_true']
      intro p hp
      simp only [List.all_eq_true, Bool.and_eq_true, Bool.not_eq_true'] at hrest
      exact hrest p hp
    simp only [List.filterMap_cons, hhead, ih hr]

/-- Everything a name-collecting filter emits is a key of the list it
filtered. -/
theorem supported_subset (l : List (String × CipherInfo))
    (f : String × CipherInfo → Bool) :
    (l.filterMap (fun p => if f p then some p.1 else none)).all
      (fun m => l.any (fun p => p.1 == m)) = true := by
  simp only [List.all_eq_true, List.any_eq_true]
  intro m hm
  simp only [List.mem_filterMap] at hm
  obtain ⟨p, hp, he⟩ := hm
  by_cases hf : f p
  · rw [if_pos hf] at he
    cases he
    exact ⟨p, hp, by simp⟩
  · rw [if_neg hf] at he
    cases he

/-- C5 counterexample: with no native ChaCha and a provider whose probe
always raises, `supportedMethods` is empty — in particular it contains
neither `rc4-md5` nor `chacha20`/`chacha20-ietf`, although the claim says
those entries are included unconditionally. The shortcut substring tests are
case-sensitive and the registry's internal names `RC4-MD5` and `ChaCha` fail
them. -/
theorem supportedMethods_unconditional_cex :
    supportedMethods false envAllFail = []
  ∧ (supportedMethods false envAllFail).contains "rc4-md5" = false
  ∧ (supportedMethods false envAllFail).contains "chacha20" = false
  ∧ (supportedMethods false envAllFail).contains "chacha20-ietf" = false
  ∧ containsStr "RC4-MD5" "rc4" = false
  ∧ containsStr "ChaCha" "chacha20" = false
  ∧ isSupported false envAllFail "RC4-MD5" = false := by
  refine ⟨by decide, by decide, by decide, by decide, by decide, by decide, by decide⟩

/-- C5 (amended): `supportedMethods` returns a subset of the registered user
names, and an entry is included exactly when the provider probe of its
descriptor's `internalName` succeeds: the `rc4*`/`chacha20*` shortcuts never
fire for registry entries, because the registry's internal names (`RC4-MD5`,
`ChaCha`) do not contain the lowercase substrings `"rc4"`/`"chacha20"`. -/
theorem supportedMethods_characterisation (b : Bool) (env : CryptoEnv) :
    (supportedMethods b env).all
      (fun m => (cipherInfoMap b).any (fun p => p.1 == m)) = true
  ∧ supportedMethods b env =
      (cipherInfoMap b).filterMap
        (fun p => if probeOk env p.2.internalName then some p.1 else none) := by
  refine ⟨supported_subset _ _, ?_⟩
  unfold supportedMethods
  apply supported_filter_eq
  cases b <;> decide

/-- `randomIv` returns exactly as many bytes as requested. -/
theorem randomIv_length (rng : Nat → Nat) (n : Nat) :
    (randomIv rng n).length = n := by
  by_cases h : n = 0 <;> simp [randomIv, h]

/-- C8: `randomIv 0` is empty; `randomIv n` returns exactly `n` bytes drawn
from the RNG stream; and `randomIv(method)` returns exactly
`registry[method].ivLen` bytes, being by definition
`randomIv(lookup(method).ivLen)`. -/
theorem randomIv_spec (rng : Nat → Nat) (n : Nat) (b : Bool) (m : String) :
    randomIv rng 0 = []
  ∧ (randomIv rng n).length = n
  ∧ (randomIv rng (n + 1)) = (List.range (n + 1)).map rng
  ∧ (randomIvMethod b rng m).map List.length = (lookupInfo b m).map CipherInfo.ivLen
  ∧ randomIvMethod b rng m = (lookupInfo b m).map (fun info => randomIv rng info.ivLen) := by
  refine ⟨rfl, randomIv_length rng n, by simp [randomIv], ?_, rfl⟩
  unfold randomIvMethod
  cases lookupInfo b m with
  | none => rfl
  | some info => simp [randomIv_length]

/-- SHA-1 always yields 20 bytes. -/
theorem sha1_length (msg : List Nat) : (sha1 msg).length = 20 := by
  simp [sha1, wordBytesBE]

/-- Full HMAC-SHA-1 always yields 20 bytes. -/
theorem hmacSha1Full_length (key msg : List Nat) :
    (hmacSha1Full key msg).length = 20 :=
  sha1_length _

/-- The expand step yields `20 * k` bytes for `k` blocks. -/
theorem hkdfOkm_length (prk info : List Nat) :
    ∀ (k : Nat) (prev : List Nat) (i : Nat),
      (hkdfOkm prk info prev i k).length = 20 * k := by
  intro k
  induction k with
  | zero => intro prev i; rfl
  | succ k ih =>
    intro prev i
    simp only [hkdfOkm, List.length_append, hmacSha1Full_length, ih]
    omega

/-- HKDF yields exactly the requested number of bytes. -/
theorem hkdf_length (outLen : Nat) (ikm salt info : List Nat) :
    (hkdf outLen ikm salt info).length = outLen := by
  unfold hkdf
  rw [List.length_take, hkdfOkm_length]
  have h1 := Nat.div_add_mod (outLen + 19) 20
  have h2 : (outLen + 19) % 20 < 20 := Nat.mod_lt _ (by norm_num)
  omega

set_option maxRecDepth 1000000 in
/-- C7: `hmacSha1` returns exactly the first `AUTH_LEN = 10` bytes of the
20-byte HMAC-SHA-1 tag, hence always 10 bytes; on
`("key", "The quick brown fox jumps over the lazy dog")` the full tag is
`de7c9b85b8b78aa6bc8a7a36f70a90701c9db4d9` and the returned truncation is
its first half `de7c9b85b8b78aa6bc8a` (not the last bytes). -/
theorem hmacSha1_spec (k m : List Nat) :
    hmacSha1 k m = (hmacSha1Full k m).take AUTH_LEN
  ∧ (hmacSha1Full k m).length = 20
  ∧ (hmacSha1 k m).length = 10
  ∧ hmacSha1Full (strToBytes "key")
      (strToBytes "The quick brown fox jumps over the lazy dog") =
      [0xde, 0x7c, 0x9b, 0x85, 0xb8, 0xb7, 0x8a, 0xa6, 0xbc, 0x8a,
       0x7a, 0x36, 0xf7, 0x0a, 0x90, 0x70, 0x1c, 0x9d, 0xb4, 0xd9]
  ∧ hmacSha1 (strToBytes "key")
      (strToBytes "The quick brown fox jumps over the lazy dog") =
      [0xde, 0x7c, 0x9b, 0x85, 0xb8, 0xb7, 0x8a, 0xa6, 0xbc, 0x8a] := by
  have hfull : hmacSha1Full (strToBytes "key")
      (strToBytes "The quick brown fox jumps over the lazy dog") =
      [0xde, 0x7c, 0x9b, 0x85, 0xb8, 0xb7, 0x8a, 0xa6, 0xbc, 0x8a,
       0x7a, 0x36, 0xf7, 0x0a, 0x90, 0x70, 0x1c, 0x9d, 0xb4, 0xd9] := by decide
  refine ⟨rfl, hmacSha1Full_length k m, ?_, hfull, ?_⟩
  · rw [hmacSha1, List.length_take, hmacSha1Full_length]
    decide
  · rw [hmacSha1, hfull]
    rfl

/-- C9: on an AEAD instance (`aes-256-gcm`), `deriveSubkey` draws a fresh
salt of `saltLen = 32` random bytes and returns exactly `keyLen = 32` bytes,
namely HKDF over HMAC-SHA-1 with ikm the instance's master key, the
generated salt, and the 9-byte ASCII label `"ss-subkey"`; the salt itself is
not part of the return value. -/
theorem deriveSubkey_spec (env : CryptoEnv) (rng : Nat → Nat)
    (key iv : List Nat) (e : Bool) (c : Cipher)
    (h : mkCipher true env "aes-256-gcm" key iv e = some c) :
    c.deriveSubkey rng = hkdf 32 key (randomIv rng 32) (strToBytes "ss-subkey")
  ∧ (c.deriveSubkey rng).length = 32
  ∧ (randomIv rng 32).length = 32
  ∧ strToBytes kdfLabel = strToBytes "ss-subkey"
  ∧ (strToBytes kdfLabel).length = 9
  ∧ c.cipherInfo.keyLen = 32 ∧ c.cipherInfo.saltLen = 32 := by
  obtain ⟨info, hl, hc⟩ := mkCipher_cases h
  have hgcm : lookupInfo true "aes-256-gcm" = some gcmInfo := by decide
  have hinfo : info = gcmInfo := Option.some.inj (hl.symm.trans hgcm)
  subst hinfo
  rcases hc with ⟨t1, rfl⟩ | ⟨f1, t2, rfl⟩ | ⟨f1, f2, pad, hg, rfl⟩
  · exact absurd t1 (by decide)
  · exact nomatch t2
  · exact ⟨rfl, hkdf_length 32 key (randomIv rng 32) (strToBytes "ss-subkey"),
      randomIv_length rng 32, rfl, rfl, rfl, rfl⟩

/-- Witness for C9: a concrete `aes-256-gcm` instance. -/
theorem deriveSubkey_spec_witness :
    c9inst.deriveSubkey rngZero =
      hkdf 32 (List.replicate 32 7) (randomIv rngZero 32) (strToBytes "ss-subkey")
  ∧ (c9inst.deriveSubkey rngZero).length = 32
  ∧ (randomIv rngZero 32).length = 32
  ∧ strToBytes kdfLabel = strToBytes "ss-subkey"
  ∧ (strToBytes kdfLabel).length = 9
  ∧ c9inst.cipherInfo.keyLen = 32 ∧ c9inst.cipherInfo.saltLen = 32 :=
  deriveSubkey_spec envAllOk rngZero
    (List.replicate 32 7) (List.replicate 12 9) true c9inst rfl
